import Mathlib

/-!
# Formal model of the store-ratings backend

This file is a shallow embedding of the rating, authentication and listing
logic of the ratings-website repository (an Express + MySQL application).
The modelled code lives in:

* `src/backend/routes/ratingRoutes.js` — the public rating router
  (`GET/POST /api/ratings`, hardcoded `user_id = 1`), the authenticated user
  router (`GET /user/stores`, `POST /user/ratings`, `GET /user/ratings`,
  `DELETE /user/ratings/:store_id`) and the auth router
  (`POST /register-admin`, `POST /register`, `POST /login`).
* `src/unnamed/part_000` — the admin router (`GET /admin/stores` sort
  parsing) and the public `GET /stores` handler.
* `src/backend/schema.sql` — the `users`, `stores` and `ratings` relations.

Modelling conventions:

* SQL `DECIMAL` values (the store aggregates) are represented exactly as
  integer *hundredths*: the value `1.33` is the integer `133`.  MySQL's
  decimal arithmetic on `AVG`/`ROUND` is exact, so this loses nothing.
  `ROUND(x, 2)` becomes `aggHundredths`, and the JavaScript `toFixed(1)`
  average of the public endpoint becomes `10 * aggTenths` (a one-decimal
  value expressed in hundredths).  The `toFixed` call in the source acts on
  a binary float; on the small integer sums arising here the rational
  rounding modelled below agrees with it.
* Raw JSON/query numbers (the `store_id` and `rating` request fields) are
  modelled as `ℚ`; JavaScript `parseInt` applied to such a number is
  truncation toward zero (`ratTrunc`).
* `bcrypt` hashing and comparison are uninterpreted function parameters
  (`hash`, `compare`); JWT issuance is abstracted to the returned payload.
* Timestamps (`created_at`, `updated_at`) and the optional rating `comment`
  are not modelled; no claim below depends on them.  List order stands in
  for the unmodelled `ORDER BY updated_at` clauses.
* `stores.overall_rating` is absent from `schema.sql` but written and read
  by the routes (`UPDATE stores SET overall_rating`, `COALESCE(s.overall_rating, 0)`);
  it is modelled as a nullable column, `NULL` (`none`) until first written.
-/

/-! ## JavaScript / MySQL numeric semantics -/

/-- Truncation of a rational toward zero.  This is what JavaScript
`parseInt` returns on a (decimal-notation) number, e.g. `parseInt(5.9) = 5`.
`Int.div` is T-division, i.e. truncation toward zero. -/
def ratTrunc (q : ℚ) : ℤ :=
  q.num.tdiv (q.den : ℤ)

/-- Rounding of `sum / cnt` to the scale `1 / scale`, expressed in units of
`1 / scale`: `roundAvgScaled 100 sum cnt` is `ROUND(sum/cnt, 2)` in
hundredths.  The formula is round-half-up, which coincides with MySQL's
round-half-away-from-zero on the nonnegative sums occurring in this
application (all stored rating values are in `[1,5]`). -/
def roundAvgScaled (scale : ℕ) (sum : ℤ) (cnt : ℕ) : ℤ :=
  (2 * scale * sum + cnt).tdiv (2 * cnt)

/-- MySQL coercion of a decimal value into an `INT` column: rounding half
away from zero (for the nonnegative values occurring here, half up). -/
def mysqlIntOfRat (q : ℚ) : ℤ :=
  (2 * q.num + (q.den : ℤ)).tdiv (2 * (q.den : ℤ))

/-! ## Data model (`src/backend/schema.sql`) -/

/-- A row of the `ratings` table.  `UNIQUE KEY unique_user_store (user_id,
store_id)` is stated as the invariant `RatingsWF` below, not baked into the
type. -/
structure Rating where
  user_id : ℕ
  store_id : ℕ
  rating : ℤ
deriving DecidableEq

/-- A row of the `stores` table, restricted to the columns the claims are
about.  `overall_rating` is the denormalized aggregate cache in hundredths,
`none` standing for SQL `NULL`. -/
structure Store where
  id : ℕ
  overall_rating : Option ℤ
deriving DecidableEq

/-- A row of the `users` table.  `password` holds the bcrypt hash. -/
structure User where
  id : ℕ
  name : String
  email : String
  password : String
  address : String
  role : String
deriving DecidableEq

/-- The mutable database state the rating routes touch. -/
structure DB where
  ratings : List Rating
  stores : List Store
deriving DecidableEq

/-- The `UNIQUE KEY unique_user_store (user_id, store_id)` constraint of the
`ratings` table. -/
def RatingsWF (db : DB) : Prop :=
  db.ratings.Pairwise (fun a b => ¬(a.user_id = b.user_id ∧ a.store_id = b.store_id))

/-- `SELECT ... FROM ratings WHERE store_id = ?` for an integer store id. -/
def ratingsOfStore (db : DB) (sid : ℕ) : List Rating :=
  db.ratings.filter (fun r => r.store_id == sid)

/-- Sum of the `rating` column over a list of rating rows. -/
def ratingsSum (l : List Rating) : ℤ :=
  (l.map (fun r => r.rating)).sum

/-- `ROUND(AVG(rating), 2)` over a set of rating rows, in hundredths
(`POST /user/ratings` statistics query). -/
def aggHundredths (l : List Rating) : ℤ :=
  roundAvgScaled 100 (ratingsSum l) l.length

/-- The one-decimal average `(total / count).toFixed(1)` of the public
rating endpoints, in tenths. -/
def aggTenths (l : List Rating) : ℤ :=
  roundAvgScaled 10 (ratingsSum l) l.length

/-- The cached `overall_rating` of the (first) store row with id `sid`. -/
def cacheOf (db : DB) (sid : ℕ) : Option ℤ :=
  match db.stores.find? (fun s => s.id == sid) with
  | some s => s.overall_rating
  | none => none

/-! ## Authenticated user routes (`POST /user/ratings`,
`DELETE /user/ratings/:store_id` in `src/backend/routes/ratingRoutes.js`) -/

/-- `validateStoreId` from the user router: `parseInt` the value and require
it positive (numeric inputs are never `NaN`, so the `isNaN` guard is
vacuous here). -/
def validateStoreId (storeId : ℚ) : Bool :=
  decide (0 < ratTrunc storeId)

/-- `validateRating` from the user router: `parseInt` the value and require
the result between 1 and 5.  Note that `parseInt` truncates, so `5.9`
passes this check. -/
def validateRating (rating : ℚ) : Bool :=
  decide (1 ≤ ratTrunc rating) && decide (ratTrunc rating ≤ 5)

/-- Outcomes of `POST /user/ratings`.  The four validation constructors are
the route's 400 responses, `storeNotFound` its 404, and `okSubmit` carries
`overall_rating` (hundredths), `total_ratings` and the created/updated
flag of the JSON payload. -/
inductive UserRatingResp where
  | missingStoreId
  | invalidStoreId
  | missingRating
  | invalidRating
  | storeNotFound
  | okSubmit (overall_rating : ℤ) (total_ratings : ℕ) (isUpdate : Bool)
deriving DecidableEq

/-- Whether a `POST /user/ratings` outcome is the success response. -/
def UserRatingResp.isOk : UserRatingResp → Bool
  | .okSubmit _ _ _ => true
  | _ => false

/-- Key equality against the `unique_user_store` key. -/
def keyMatch (uid sid : ℕ) (r : Rating) : Bool :=
  r.user_id == uid && r.store_id == sid

/-- `INSERT INTO ratings ... ON DUPLICATE KEY UPDATE rating = VALUES(rating)`
keyed by `(user_id, store_id)`: update the existing row in place if one
exists, otherwise append a new row.  The boolean is the
`affectedRows === 2` is-update flag. -/
def upsertRating (ratings : List Rating) (uid sid : ℕ) (v : ℤ) : List Rating × Bool :=
  if ratings.any (keyMatch uid sid) then
    (ratings.map (fun r => if keyMatch uid sid r then { r with rating := v } else r), true)
  else
    (ratings ++ [⟨uid, sid, v⟩], false)

/-- The `POST /user/ratings` handler.  `uid` is `req.user.id` from the
token; `store_id` and `rating` are the raw JSON numbers.  The whole body
runs inside one `beginTransaction`/`commit`, so the handler is a single
atomic step on the state; every early return leaves the state unchanged.
The queries compare the raw `store_id` against the integer `id` column, so
after the store lookup succeeds the raw value equals the matched store's
integer id and is stored as such. -/
def postUserRatings (db : DB) (uid : ℕ) (store_id rating : ℚ) : UserRatingResp × DB :=
  if store_id = 0 then (.missingStoreId, db)
  else if !validateStoreId store_id then (.invalidStoreId, db)
  else if rating = 0 then (.missingRating, db)
  else if !validateRating rating then (.invalidRating, db)
  else
    match db.stores.find? (fun s => ((s.id : ℚ) == store_id)) with
    | none => (.storeNotFound, db)
    | some st =>
      let numericRating := ratTrunc rating
      let up := upsertRating db.ratings uid st.id numericRating
      let rs := up.1.filter (fun r => r.store_id == st.id)
      let overall := aggHundredths rs
      let stores2 := db.stores.map (fun s =>
        if s.id == st.id then { s with overall_rating := some overall } else s)
      (.okSubmit overall rs.length up.2, ⟨up.1, stores2⟩)

/-- Outcomes of `DELETE /user/ratings/:store_id`. -/
inductive DeleteRatingResp where
  | invalidStoreId
  | ratingNotFound
  | okDelete
deriving DecidableEq

/-- The `DELETE /user/ratings/:store_id` handler: delete the caller's
rating row for the store; 404 when `affectedRows === 0`.  The handler never
touches the `stores` table — the cached `overall_rating` is left as it was. -/
def deleteUserRating (db : DB) (uid : ℕ) (store_id : ℚ) : DeleteRatingResp × DB :=
  if !validateStoreId store_id then (.invalidStoreId, db)
  else
    let remaining := db.ratings.filter (fun r =>
      !(r.user_id == uid && (r.store_id : ℚ) == store_id))
    if db.ratings.length - remaining.length = 0 then (.ratingNotFound, db)
    else (.okDelete, ⟨remaining, db.stores⟩)

/-! ## Public rating routes (`POST /api/ratings`, hardcoded `user_id = 1`,
and the public `GET /stores` handler in `src/unnamed/part_000`) -/

/-- Outcomes of `POST /api/ratings`.  `missingFields` and `invalidRating`
are the 400 responses, `serverError` the catch-all 500 (in particular a
foreign-key failure when inserting a rating for a nonexistent store), and
`okSubmit` carries `overall_rating` (hundredths) and `is_update` of the
JSON payload. -/
inductive ApiRatingResp where
  | missingFields
  | invalidRating
  | serverError
  | okSubmit (overall_rating : ℤ) (isUpdate : Bool)
deriving DecidableEq

/-- Shared tail of the public `POST /api/ratings` handler: recompute the
store average with `toFixed(1)`, then try to update the store's cached
`overall_rating` *outside any transaction*, swallowing a failure of that
update (`catch ... continue anyway`).  `storeUpdateFails` injects whether
the `UPDATE stores` statement fails; the rating write before it has already
autocommitted either way. -/
def postApiRatingsFinish (db : DB) (store_id : ℚ) (storeUpdateFails : Bool)
    (newRatings : List Rating) (isUpdate : Bool) : ApiRatingResp × DB :=
  let rs := newRatings.filter (fun r => (r.store_id : ℚ) == store_id)
  let averageRating : ℤ := if 0 < rs.length then 10 * aggTenths rs else 0
  let stores2 :=
    if storeUpdateFails then db.stores
    else db.stores.map (fun s =>
      if (s.id : ℚ) == store_id then { s with overall_rating := some averageRating } else s)
  (.okSubmit averageRating isUpdate, ⟨newRatings, stores2⟩)

/-- The public `POST /api/ratings` handler.  No authentication: the rating
is recorded for the hardcoded `user_id = 1` whoever the caller is.  The
value check compares the *raw* rating against 1 and 5 (no `parseInt`), the
upsert is a `SELECT` followed by `UPDATE` or `INSERT` (no transaction), and
a nonexistent store surfaces as a foreign-key error on `INSERT`, caught as
a 500. -/
def postApiRatings (db : DB) (store_id rating : ℚ) (storeUpdateFails : Bool) :
    ApiRatingResp × DB :=
  if store_id = 0 ∨ rating = 0 then (.missingFields, db)
  else if rating < 1 ∨ 5 < rating then (.invalidRating, db)
  else
    let user_id : ℕ := 1
    if db.ratings.any (fun r => r.user_id == user_id && (r.store_id : ℚ) == store_id) then
      postApiRatingsFinish db store_id storeUpdateFails
        (db.ratings.map (fun r =>
          if r.user_id == user_id && (r.store_id : ℚ) == store_id then
            { r with rating := mysqlIntOfRat rating }
          else r))
        true
    else if db.stores.any (fun s => (s.id : ℚ) == store_id) then
      postApiRatingsFinish db store_id storeUpdateFails
        (db.ratings ++ [⟨user_id, (mysqlIntOfRat store_id).toNat, mysqlIntOfRat rating⟩])
        false
    else (.serverError, db)

/-- One row of the public `GET /stores` response: the store id, the rating
of the hardcoded default identity (`user_id = 1`) served as `user_rating`,
and `COALESCE(s.overall_rating, 0)` (hundredths). -/
structure StoreView where
  id : ℕ
  user_rating : Option ℤ
  overall_rating : ℤ
deriving DecidableEq

/-- The public `GET /stores` handler (`src/unnamed/part_000`).  It takes no
caller identity at all: `const user_id = 1` and the `LEFT JOIN ratings r ON
... AND r.user_id = ?` serve user 1's rating to every caller.  The optional
search filter and the `ORDER BY s.id` are not modelled (the stores list is
returned in table order). -/
def getStores (db : DB) : List StoreView :=
  let user_id : ℕ := 1
  db.stores.map (fun s =>
    { id := s.id
      user_rating :=
        (db.ratings.find? (fun r => r.store_id == s.id && r.user_id == user_id)).map
          (fun r => r.rating)
      overall_rating := s.overall_rating.getD 0 })

/-! ## String semantics helpers (JavaScript string methods, written over
`List Char` so that they compute by structural recursion) -/

/-- JavaScript `String.prototype.trim`: drop whitespace from both ends. -/
def jsTrim (s : String) : String :=
  ⟨((s.data.dropWhile Char.isWhitespace).reverse.dropWhile Char.isWhitespace).reverse⟩

/-- JavaScript `toLowerCase` (ASCII range, as `Char.toLower`). -/
def jsToLower (s : String) : String :=
  ⟨s.data.map Char.toLower⟩

/-- JavaScript `toUpperCase` (ASCII range, as `Char.toUpper`). -/
def jsToUpper (s : String) : String :=
  ⟨s.data.map Char.toUpper⟩

/-- JavaScript `String.prototype.split` with a one-character separator. -/
def splitOnChar (sep : Char) : List Char → List (List Char)
  | [] => [[]]
  | c :: cs =>
    let r := splitOnChar sep cs
    if c == sep then [] :: r
    else
      match r with
      | [] => [[c]]
      | s :: ss => (c :: s) :: ss

/-! ## Auth router validation helpers
(`src/backend/routes/ratingRoutes.js`, auth section) -/

/-- The line-terminator characters that `.` does not match in a JavaScript
regular expression without the `s` flag. -/
def isLineTerminator (c : Char) : Bool :=
  c == '\n' || c == '\r' || c == '\u2028' || c == '\u2029'

/-- `validateEmail`: the test `/^[^\s@]+@[^\s@]+\.[^\s@]+$/.test(email) &&
email.length <= 255`.  The regex means: exactly one `@` (no character class
admits one), no whitespace anywhere, a nonempty local part, and a `.`
somewhere in the interior of the nonempty domain part. -/
def validateEmail (email : String) : Bool :=
  (match splitOnChar '@' email.data with
   | [lpart, dpart] =>
     !lpart.isEmpty && lpart.all (fun c => !c.isWhitespace) &&
       dpart.all (fun c => !c.isWhitespace) &&
       (List.range dpart.length).any (fun i =>
         decide (1 ≤ i) && decide (i + 1 < dpart.length) && dpart.getD i ' ' == '.')
   | _ => false) &&
    decide (email.length ≤ 255)

/-- Uppercase ASCII letters, the class `[A-Z]`. -/
def isUpperAZ (c : Char) : Bool :=
  'A' ≤ c && c ≤ 'Z'

/-- The special characters of `validatePassword`: the regex class
`[!@#$%^&*()_+\-=\[\]{};':"\\|,./<>?]`. -/
def passwordSpecials : List Char :=
  ['!', '@', '#', '$', '%', '^', '&', '*', '(', ')', '_', '+', '-', '=',
   '[', ']', '{', '}', ';', '\'', ':', '\"', '\\', '|', ',', '.', '/', '<', '>', '?']

/-- Membership in the password special-character class. -/
def isPasswordSpecial (c : Char) : Bool :=
  passwordSpecials.contains c

/-- Semantics of a lookahead `(?=.*X)` anchored at the start: some character
satisfying `p` occurs, with only non-line-terminator characters (matched by
`.*`) before it. -/
def dotStarFind (p : Char → Bool) : List Char → Bool
  | [] => false
  | c :: cs => if p c then true else if isLineTerminator c then false else dotStarFind p cs

/-- Semantics of the lookahead `(?=.{8,16}$)` anchored at the start: the
whole string is 8 to 16 characters, none of which is a line terminator
(`.` matches any character except line terminators; `$` without the `m`
flag only matches at the very end). -/
def lengthWindowOk (s : List Char) : Bool :=
  decide (8 ≤ s.length) && decide (s.length ≤ 16) && s.all (fun c => !isLineTerminator c)

/-- `validatePassword`: the test
`/^(?=.*[A-Z])(?=.*[!@#$%^&*()_+\-=\[\]{};':"\\|,./<>?])(?=.{8,16}$)/.test(password)`,
three independent lookaheads anchored at position 0. -/
def validatePassword (password : String) : Bool :=
  dotStarFind isUpperAZ password.data && dotStarFind isPasswordSpecial password.data &&
    lengthWindowOk password.data

/-- `validateName`: a truthy name whose trimmed length is between 20 and 60. -/
def validateName (name : String) : Bool :=
  !name.isEmpty && decide (20 ≤ (jsTrim name).length) && decide ((jsTrim name).length ≤ 60)

/-- `validateAddress`: a truthy address whose trimmed length is between 5
and 400. -/
def validateAddress (address : String) : Bool :=
  !address.isEmpty && decide (5 ≤ (jsTrim address).length) &&
    decide ((jsTrim address).length ≤ 400)

/-! ## `POST /register-admin` and `POST /login` -/

/-- Outcomes of `POST /register-admin`: 403 for a wrong secret, 409 when an
admin already exists, the 400 validation responses, and 201 with the new
admin's id and normalized email. -/
inductive RegisterAdminResp where
  | forbidden
  | conflict
  | missingFields
  | invalidName
  | invalidEmail
  | invalidPassword
  | invalidAddress
  | created (adminId : ℕ) (email : String)
deriving DecidableEq

/-- The pre-shared bootstrap secret checked by `POST /register-admin`. -/
def ADMIN_SECRET : String := "CREATE_FIRST_ADMIN_2025"

/-- The `POST /register-admin` handler.  Order of checks as in the source:
the secret is compared FIRST (403 on mismatch), only then is the
`SELECT id FROM users WHERE role = 'admin'` existence check run (409), and
only after that the field validations.  `hash` is the uninterpreted
`bcrypt.hash`; the `AUTO_INCREMENT` id is modelled as one more than the
current row count (no user deletions occur in the claims below). -/
def postRegisterAdmin (hash : String → String) (users : List User)
    (name email password address adminSecret : String) : RegisterAdminResp × List User :=
  if adminSecret ≠ ADMIN_SECRET then (.forbidden, users)
  else if users.any (fun u => u.role == "admin") then (.conflict, users)
  else if name = "" ∨ email = "" ∨ password = "" ∨ address = "" then (.missingFields, users)
  else if !validateName name then (.invalidName, users)
  else if !validateEmail email then (.invalidEmail, users)
  else if !validatePassword password then (.invalidPassword, users)
  else if !validateAddress address then (.invalidAddress, users)
  else
    let uid := users.length + 1
    (.created uid (jsTrim (jsToLower email)),
      users ++ [⟨uid, jsTrim name, jsTrim (jsToLower email), hash password, jsTrim address,
        "admin"⟩])

/-- Outcomes of `POST /login`: the 400 responses, the single 401 response
shape (carrying its `error` and `message` strings verbatim), and success
with the token payload `{id, role}`. -/
inductive LoginResp where
  | missingCredentials
  | invalidEmailFormat
  | unauthorized (error message : String)
  | okLogin (id : ℕ) (role : String)
deriving DecidableEq

/-- The `POST /login` handler.  `compare` is the uninterpreted
`bcrypt.compare`.  Both authentication-failure branches — unknown email and
wrong password — return 401 with the identical body
`{error: "Invalid credentials", message: "Email or password is incorrect"}`. -/
def postLogin (compare : String → String → Bool) (users : List User)
    (email password : String) : LoginResp :=
  if email = "" ∨ password = "" then .missingCredentials
  else if !validateEmail email then .invalidEmailFormat
  else
    match users.find? (fun u => u.email == jsTrim (jsToLower email)) with
    | none => .unauthorized "Invalid credentials" "Email or password is incorrect"
    | some user =>
      if !compare password user.password then
        .unauthorized "Invalid credentials" "Email or password is incorrect"
      else .okLogin user.id user.role

/-! ## Sort-parameter handling of the listing endpoints -/

/-- The `validSorts` allow-list of `GET /user/stores`: enumerated token →
`ORDER BY` clause. -/
def userStoresValidSorts : List (String × String) :=
  [("name_asc", "ORDER BY s.name ASC"),
   ("name_desc", "ORDER BY s.name DESC"),
   ("rating_desc", "ORDER BY overall_rating DESC"),
   ("rating_asc", "ORDER BY overall_rating ASC"),
   ("newest", "ORDER BY s.created_at DESC"),
   ("oldest", "ORDER BY s.created_at ASC")]

/-- The default order of both store listings. -/
def DEFAULT_STORE_ORDER : String := "ORDER BY s.name ASC"

/-- The property names reachable on any JavaScript object literal through
its `Object.prototype` chain: a bracket lookup `obj[key]` with one of these
keys returns the inherited function (or, for `__proto__`, an object) even
though `key` is no own property of the literal — and that value is truthy. -/
def objectProtoKeys : List String :=
  ["constructor", "hasOwnProperty", "isPrototypeOf", "propertyIsEnumerable",
   "toLocaleString", "toString", "valueOf", "__proto__", "__defineGetter__",
   "__defineSetter__", "__lookupGetter__", "__lookupSetter__"]

/-- What a template literal interpolates for an inherited `Object.prototype`
member: the function stringifies to JavaScript source text (for
`__proto__`, to an object tag).  The exact text varies by key and engine;
all that matters downstream is that it is never a valid `ORDER BY` clause,
so one uniform shape is used. -/
def inheritedMemberText (key : String) : String :=
  "function " ++ key ++ "() [native code]"

/-- Sort handling of `GET /user/stores`: the object-literal lookup
`validSorts[sort]`.  An own property (one of the six tokens) yields its
clause; otherwise the lookup continues up the prototype chain, so an
`Object.prototype` property name yields a truthy inherited member whose
interpolation replaces the order-by text; only a key found nowhere is
`undefined` (falsy) and keeps the default.  `none` is an absent parameter,
and the empty string is falsy. -/
def userStoresOrderBy (sort : Option String) : String :=
  match sort with
  | none => DEFAULT_STORE_ORDER
  | some s =>
    if s = "" then DEFAULT_STORE_ORDER
    else
      match userStoresValidSorts.find? (fun p => p.1 == s) with
      | some p => p.2
      | none =>
        if objectProtoKeys.contains s then inheritedMemberText s
        else DEFAULT_STORE_ORDER

/-- The `[field, dir] = sort.split(':')` destructuring: the first segment
and, when a separator is present, the second. -/
def jsSplitTwo (s : String) : String × Option String :=
  match splitOnChar ':' s.data with
  | [] => ("", none)
  | [f] => (⟨f⟩, none)
  | f :: d :: _ => (⟨f⟩, some ⟨d⟩)

/-- `validFields` of the `GET /admin/stores` sort parser. -/
def adminValidFields : List String := ["name", "email", "address"]

/-- `validDirs` of the `GET /admin/stores` sort parser. -/
def adminValidDirs : List String := ["asc", "desc"]

/-- The guard of the first branch of the `GET /admin/stores` sort parser:
`validFields.includes(field) && validDirs.includes(dir?.toLowerCase())`. -/
def adminStoresFieldDirOk (s : String) : Bool :=
  adminValidFields.contains (jsSplitTwo s).1 &&
    (match (jsSplitTwo s).2 with
     | some d => adminValidDirs.contains (jsToLower d)
     | none => false)

/-- Sort handling of `GET /admin/stores` (`src/unnamed/part_000`): an
allow-listed `field:direction` pair is interpolated as
`ORDER BY s.field DIR`; otherwise, when the field is `rating`, the
direction is interpolated UNVALIDATED as `ORDER BY rating ${dir
toUpperCase or DESC}`; anything else falls back to the default. -/
def adminStoresOrderBy (sort : Option String) : String :=
  match sort with
  | none => DEFAULT_STORE_ORDER
  | some s =>
    if s = "" then DEFAULT_STORE_ORDER
    else
      if adminStoresFieldDirOk s then
        "ORDER BY s." ++ (jsSplitTwo s).1 ++ " " ++ jsToUpper (((jsSplitTwo s).2).getD "")
      else if (jsSplitTwo s).1 = "rating" then
        "ORDER BY rating " ++
          (match (jsSplitTwo s).2 with
           | some d => if d = "" then "DESC" else jsToUpper d
           | none => "DESC")
      else DEFAULT_STORE_ORDER

/-- The result columns of the `GET /admin/stores` query, as an ORDER BY
target list. -/
def adminStoresSqlColumns : List String :=
  ["s.id", "s.name", "s.email", "s.address", "s.owner_id", "s.created_at",
   "rating", "rating_count", "owner_name"]

/-- The `ORDER BY` clauses MySQL accepts for the `GET /admin/stores` query:
a result column followed by `ASC` or `DESC`.  This models the SQL grammar
of the external database engine; any other clause makes `connection.query`
throw. -/
def adminStoresValidOrderBys : List String :=
  adminStoresSqlColumns.flatMap (fun c => ["ORDER BY " ++ c ++ " ASC", "ORDER BY " ++ c ++ " DESC"])

/-- The result columns of the `GET /user/stores` query, as an ORDER BY
target list. -/
def userStoresSqlColumns : List String :=
  ["s.id", "s.name", "s.address", "s.email", "overall_rating", "rating_count",
   "user_rating", "s.created_at"]

/-- The `ORDER BY` clauses MySQL accepts for the `GET /user/stores` query. -/
def userStoresValidOrderBys : List String :=
  userStoresSqlColumns.flatMap (fun c => ["ORDER BY " ++ c ++ " ASC", "ORDER BY " ++ c ++ " DESC"])

/-- Outcome of running a store listing: a 200 whose rows follow the given
`ORDER BY` clause, or the route's catch-all 500 when the SQL engine
rejects the query. -/
inductive QueryOutcome where
  | okQuery (orderBy : String)
  | serverError
deriving DecidableEq

/-- The fate of a `GET /admin/stores` request as a function of its sort
parameter: the handler interpolates `adminStoresOrderBy` into the SQL text;
a malformed clause makes the query throw and the handler answer 500. -/
def adminStoresOutcome (sort : Option String) : QueryOutcome :=
  if adminStoresValidOrderBys.contains (adminStoresOrderBy sort) then
    .okQuery (adminStoresOrderBy sort)
  else .serverError

/-- The fate of a `GET /user/stores` request as a function of its sort
parameter. -/
def userStoresOutcome (sort : Option String) : QueryOutcome :=
  if userStoresValidOrderBys.contains (userStoresOrderBy sort) then
    .okQuery (userStoresOrderBy sort)
  else .serverError

/-! ## Derived definitions used by the specification statements -/

/-- A raw request number given as an exact fraction `n / d`.  The explicit
constructor keeps the value kernel-computable (the `Rat` division operator
normalizes through `Nat.gcd`). -/
def rawRat (n : ℤ) (d : ℕ) (h1 : d ≠ 0) (h2 : n.natAbs.Coprime d) : ℚ :=
  ⟨n, d, h1, h2⟩

/-- Rows of `GET /api/ratings/store/:storeId` (ListByStore): the ratings of
the store.  The `ORDER BY updated_at DESC` is not modelled; the claims
below only constrain the row set. -/
def getStoreRatings (db : DB) (sid : ℕ) : List Rating :=
  ratingsOfStore db sid

/-- The rows of ListByStore belonging to one rater. -/
def storeRatingsOfUser (db : DB) (sid uid : ℕ) : List Rating :=
  (getStoreRatings db sid).filter (fun r => r.user_id == uid)

/-- Fold a sequence of authenticated Submit operations
`(user, store_id, rating)` over the state. -/
def applySubmits (db : DB) : List (ℕ × ℚ × ℚ) → DB
  | [] => db
  | op :: ops => applySubmits (postUserRatings db op.1 op.2.1 op.2.2).2 ops

/-- Aggregate consistency of the denormalized cache: every store whose
rating set is empty still has a `NULL` cache (served as average 0, count 0,
through `COALESCE`), and every store with ratings caches exactly
`ROUND(AVG(rating), 2)` over its current ratings. -/
def cacheConsistent (db : DB) : Prop :=
  ∀ s ∈ db.stores,
    (ratingsOfStore db s.id = [] → s.overall_rating = none) ∧
    (ratingsOfStore db s.id ≠ [] →
      s.overall_rating = some (aggHundredths (ratingsOfStore db s.id)))

/-! ## Helper lemmas -/

/-- Unfolding of the row key match. -/
theorem keyMatch_iff (uid sid : ℕ) (r : Rating) :
    keyMatch uid sid r = true ↔ (r.user_id = uid ∧ r.store_id = sid) := by
  simp [keyMatch, Bool.and_eq_true, beq_iff_eq]

/-- `find?` only depends on the predicate pointwise. -/
theorem find?_ext {α : Type} (p q : α → Bool) (h : ∀ a, p a = q a) :
    ∀ l : List α, l.find? p = l.find? q := by
  intro l
  induction l with
  | nil => rfl
  | cons a t ih => simp only [List.find?_cons, h a, ih]

/-- `find?` equals the head of the filtered list. -/
theorem find?_eq_head_filter {α : Type} (p : α → Bool) :
    ∀ l : List α, l.find? p = (l.filter p).head? := by
  intro l
  induction l with
  | nil => rfl
  | cons a t ih =>
    by_cases h : p a = true
    · rw [List.find?_cons_of_pos _ h, List.filter_cons_of_pos h, List.head?_cons]
    · rw [List.find?_cons_of_neg _ h, List.filter_cons_of_neg h, ih]

/-- The in-place rating update of an upsert leaves the rows of any other
store untouched. -/
theorem filter_store_map_update (uid sid : ℕ) (v : ℤ) (tid : ℕ) (h : tid ≠ sid) :
    ∀ t : List Rating,
      (t.map (fun r => if keyMatch uid sid r then { r with rating := v } else r)).filter
          (fun r => r.store_id == tid) =
        t.filter (fun r => r.store_id == tid) := by
  intro t
  induction t with
  | nil => rfl
  | cons a t ih =>
    simp only [List.map_cons]
    by_cases hk : keyMatch uid sid a = true
    · have hsid : a.store_id = sid := ((keyMatch_iff uid sid a).mp hk).2
      have hcond : (a.store_id == tid) = false := by
        rw [hsid]
        simp only [beq_eq_false_iff_ne, ne_eq]
        exact fun hh => h hh.symm
      have h2 : (({ a with rating := v } : Rating).store_id == tid) = false := hcond
      rw [if_pos hk, List.filter_cons, List.filter_cons,
        if_neg (by simp [h2]), if_neg (by simp [hcond])]
      exact ih
    · rw [if_neg hk, List.filter_cons, List.filter_cons]
      by_cases hc : (a.store_id == tid) = true
      · rw [if_pos hc, if_pos hc, ih]
      · rw [if_neg hc, if_neg hc, ih]

/-- The upsert never changes the rating rows of another store. -/
theorem upsert_filter_other_store (l : List Rating) (uid sid : ℕ) (v : ℤ) (tid : ℕ)
    (h : tid ≠ sid) :
    (upsertRating l uid sid v).1.filter (fun r => r.store_id == tid) =
      l.filter (fun r => r.store_id == tid) := by
  unfold upsertRating
  by_cases hany : l.any (keyMatch uid sid) = true
  · rw [if_pos hany]
    exact filter_store_map_update uid sid v tid h l
  · rw [if_neg hany]
    have hcond : ((⟨uid, sid, v⟩ : Rating).store_id == tid) = false := by
      simp only [beq_eq_false_iff_ne, ne_eq]
      exact fun hh => h hh.symm
    simp [List.filter_append, hcond]

/-- After an upsert the submitted store has at least one rating row. -/
theorem upsert_filter_self_ne_nil (l : List Rating) (uid sid : ℕ) (v : ℤ) :
    (upsertRating l uid sid v).1.filter (fun r => r.store_id == sid) ≠ [] := by
  unfold upsertRating
  by_cases hany : l.any (keyMatch uid sid) = true
  · rw [if_pos hany]
    rcases List.any_eq_true.mp hany with ⟨r, hr, hkr⟩
    have hsid : r.store_id = sid := ((keyMatch_iff uid sid r).mp hkr).2
    have hmem : (if keyMatch uid sid r = true then ({ r with rating := v } : Rating) else r) ∈
        (l.map (fun x => if keyMatch uid sid x then { x with rating := v } else x)) :=
      List.mem_map_of_mem _ hr
    rw [if_pos hkr] at hmem
    have hpass : (({ r with rating := v } : Rating).store_id == sid) = true := by
      simpa using hsid
    exact List.ne_nil_of_mem (List.mem_filter.mpr ⟨hmem, hpass⟩)
  · rw [if_neg hany]
    have hmem : (⟨uid, sid, v⟩ : Rating) ∈ l ++ [⟨uid, sid, v⟩] :=
      List.mem_append_right _ (by simp)
    have hpass : ((⟨uid, sid, v⟩ : Rating).store_id == sid) = true := by simp
    exact List.ne_nil_of_mem (List.mem_filter.mpr ⟨hmem, hpass⟩)

/-- The upsert preserves the `unique_user_store` constraint. -/
theorem upsert_preserves_pairwise (l : List Rating) (uid sid : ℕ) (v : ℤ)
    (h : l.Pairwise (fun a b => ¬(a.user_id = b.user_id ∧ a.store_id = b.store_id))) :
    (upsertRating l uid sid v).1.Pairwise
      (fun a b => ¬(a.user_id = b.user_id ∧ a.store_id = b.store_id)) := by
  unfold upsertRating
  by_cases hany : l.any (keyMatch uid sid) = true
  · rw [if_pos hany]
    refine List.Pairwise.map _ ?_ h
    intro a b hab
    by_cases ha : keyMatch uid sid a = true <;> by_cases hb : keyMatch uid sid b = true <;>
      simp [ha, hb] <;> exact fun h1 h2 => hab ⟨h1, h2⟩
  · rw [if_neg hany]
    rw [List.pairwise_append]
    refine ⟨h, List.pairwise_singleton _ _, ?_⟩
    intro a ha b hb
    have hb' : b = ⟨uid, sid, v⟩ := by simpa using hb
    subst hb'
    intro hcon
    have : keyMatch uid sid a = true := (keyMatch_iff uid sid a).mpr ⟨hcon.1, hcon.2⟩
    have : l.any (keyMatch uid sid) = true := List.any_eq_true.mpr ⟨a, ha, this⟩
    exact hany this

/-- Under the uniqueness constraint, the rows carrying the upserted key
after an upsert are exactly the one upserted row. -/
theorem upsert_filter_key (l : List Rating) (uid sid : ℕ) (v : ℤ)
    (h : l.Pairwise (fun a b => ¬(a.user_id = b.user_id ∧ a.store_id = b.store_id))) :
    (upsertRating l uid sid v).1.filter (keyMatch uid sid) = [⟨uid, sid, v⟩] := by
  unfold upsertRating
  by_cases hany : l.any (keyMatch uid sid) = true
  · rw [if_pos hany]
    induction l with
    | nil => simp at hany
    | cons a t ih =>
      have hpw := List.pairwise_cons.mp h
      simp only [List.map_cons]
      by_cases hk : keyMatch uid sid a = true
      · rcases (keyMatch_iff uid sid a).mp hk with ⟨hu, hs⟩
        have hhead : (if keyMatch uid sid a = true then ({ a with rating := v } : Rating)
            else a) = ⟨uid, sid, v⟩ := by
          rw [if_pos hk]
          cases a
          simp_all
        rw [hhead]
        have hkey2 : keyMatch uid sid (⟨uid, sid, v⟩ : Rating) = true := by
          simp [keyMatch]
        rw [List.filter_cons_of_pos hkey2]
        have htail : (t.map (fun x => if keyMatch uid sid x then { x with rating := v }
            else x)).filter (keyMatch uid sid) = [] := by
          rw [List.filter_eq_nil_iff]
          intro b hb
          rcases List.mem_map.mp hb with ⟨b0, hb0, hfb⟩
          have hb0k : keyMatch uid sid b0 = false := by
            refine Bool.eq_false_iff.mpr (fun ht => ?_)
            rcases (keyMatch_iff uid sid b0).mp ht with ⟨hu0, hs0⟩
            exact hpw.1 b0 hb0 ⟨by rw [hu, hu0], by rw [hs, hs0]⟩
          rw [if_neg (by simp [hb0k])] at hfb
          subst hfb
          simp [hb0k]
        rw [htail]
      · rw [if_neg hk]
        have hany' : t.any (keyMatch uid sid) = true := by
          rcases List.any_eq_true.mp hany with ⟨r, hr, hkr⟩
          rcases List.mem_cons.mp hr with rfl | hrt
          · exact absurd hkr hk
          · exact List.any_eq_true.mpr ⟨r, hrt, hkr⟩
        have hkf : keyMatch uid sid a = false := Bool.eq_false_iff.mpr hk
        rw [List.filter_cons_of_neg (by simp [hkf])]
        exact ih hpw.2 hany'
  · rw [if_neg hany]
    rw [List.filter_append]
    have h1 : l.filter (keyMatch uid sid) = [] := by
      rw [List.filter_eq_nil_iff]
      intro b hb
      intro hbk
      exact hany (List.any_eq_true.mpr ⟨b, hb, hbk⟩)
    have h2 : ([⟨uid, sid, v⟩] : List Rating).filter (keyMatch uid sid) = [⟨uid, sid, v⟩] := by
      simp [keyMatch]
    rw [h1, h2, List.nil_append]

/-- Case analysis of `POST /user/ratings`: either the request is rejected
and the transaction leaves the state untouched, or a store matching the raw
`store_id` was found and the upsert, statistics and cache write all
happened in one step. -/
theorem postUserRatings_cases (db : DB) (uid : ℕ) (sq v : ℚ) :
    ((postUserRatings db uid sq v).2 = db ∧ (postUserRatings db uid sq v).1.isOk = false) ∨
    (∃ st, db.stores.find? (fun s => ((s.id : ℚ) == sq)) = some st ∧
      postUserRatings db uid sq v =
        (.okSubmit
          (aggHundredths ((upsertRating db.ratings uid st.id (ratTrunc v)).1.filter
            (fun r => r.store_id == st.id)))
          ((upsertRating db.ratings uid st.id (ratTrunc v)).1.filter
            (fun r => r.store_id == st.id)).length
          (upsertRating db.ratings uid st.id (ratTrunc v)).2,
         ⟨(upsertRating db.ratings uid st.id (ratTrunc v)).1,
          db.stores.map (fun s =>
            if s.id == st.id then
              { s with overall_rating := some (aggHundredths
                ((upsertRating db.ratings uid st.id (ratTrunc v)).1.filter
                  (fun r => r.store_id == st.id))) }
            else s)⟩)) := by
  by_cases h1 : sq = 0
  · left
    constructor <;> simp [postUserRatings, h1, UserRatingResp.isOk]
  by_cases h2 : validateStoreId sq = true
  case neg =>
    left
    constructor <;> simp [postUserRatings, h1, h2, UserRatingResp.isOk]
  by_cases h3 : v = 0
  · left
    constructor <;> simp [postUserRatings, h1, h2, h3, UserRatingResp.isOk]
  by_cases h4 : validateRating v = true
  case neg =>
    left
    constructor <;> simp [postUserRatings, h1, h2, h3, h4, UserRatingResp.isOk]
  cases hfind : db.stores.find? (fun s => ((s.id : ℚ) == sq)) with
  | none =>
    left
    constructor <;> simp [postUserRatings, h1, h2, h3, h4, hfind, UserRatingResp.isOk]
  | some st =>
    right
    refine ⟨st, rfl, ?_⟩
    simp [postUserRatings, h1, h2, h3, h4, hfind]

/-- One authenticated Submit keeps the denormalized cache consistent. -/
theorem cacheConsistent_step (db : DB) (uid : ℕ) (sq v : ℚ)
    (h : cacheConsistent db) : cacheConsistent (postUserRatings db uid sq v).2 := by
  rcases postUserRatings_cases db uid sq v with ⟨heq, _⟩ | ⟨st, hfind, heq⟩
  · rw [heq]
    exact h
  · rw [heq]
    intro s hs
    rcases List.mem_map.mp hs with ⟨s0, hs0, rfl⟩
    by_cases hid : s0.id = st.id
    · rw [if_pos (by simp [hid])]
      simp only [ratingsOfStore]
      constructor
      · intro hnil
        rw [hid] at hnil
        exact absurd hnil (upsert_filter_self_ne_nil _ _ _ _)
      · intro hne
        rw [hid]
    · rw [if_neg (by simp [hid])]
      simp only [ratingsOfStore]
      have hfilter : (upsertRating db.ratings uid st.id (ratTrunc v)).1.filter
          (fun r => r.store_id == s0.id) =
            db.ratings.filter (fun r => r.store_id == s0.id) :=
        upsert_filter_other_store db.ratings uid st.id (ratTrunc v) s0.id hid
      rw [hfilter]
      exact h s0 hs0

/-- C1 (amended): starting from a consistent state, after any sequence of
authenticated Submit operations every store's persisted aggregate equals
`ROUND(mean of current rating values, 2 decimals)` when the store has
ratings, and is `NULL` (served as average 0 / count 0) when it has none. -/
theorem submit_sequences_round_two_invariant :
    ∀ (ops : List (ℕ × ℚ × ℚ)) (db : DB),
      cacheConsistent db → cacheConsistent (applySubmits db ops) := by
  intro ops
  induction ops with
  | nil =>
    intro db h
    exact h
  | cons op ops ih =>
    intro db h
    exact ih _ (cacheConsistent_step db op.1 op.2.1 op.2.2 h)

/-- Witness for `submit_sequences_round_two_invariant` at a concrete
three-submit run. -/
theorem submit_sequences_round_two_invariant_witness :
    cacheConsistent ⟨[], [⟨1, none⟩]⟩ ∧
      cacheConsistent (applySubmits ⟨[], [⟨1, none⟩]⟩ [(10, 1, 1), (11, 1, 1), (12, 1, 2)]) :=
  ⟨by unfold cacheConsistent; decide,
    submit_sequences_round_two_invariant _ _ (by unfold cacheConsistent; decide)⟩

/-- C1 as stated is false on the code: after the submits 1, 1, 2 for one
store the persisted aggregate is `1.33` (the `ROUND(AVG(rating), 2)` of
`POST /user/ratings`), not the claimed one-decimal `1.3`; and after a
Submit followed by a Delete the persisted aggregate stays `5.00` although
the store has no ratings, because `DELETE /user/ratings/:store_id` never
refreshes it. -/
theorem one_decimal_aggregate_counterexample :
    (applySubmits ⟨[], [⟨1, none⟩]⟩ [(10, 1, 1), (11, 1, 1), (12, 1, 2)]).stores
        = [⟨1, some 133⟩] ∧
      10 * aggTenths (ratingsOfStore
        (applySubmits ⟨[], [⟨1, none⟩]⟩ [(10, 1, 1), (11, 1, 1), (12, 1, 2)]) 1) = 130 ∧
      (133 : ℤ) ≠ 130 ∧
      (deleteUserRating (postUserRatings ⟨[], [⟨1, none⟩]⟩ 10 1 5).2 10 1).2
        = ⟨[], [⟨1, some 500⟩]⟩ := by
  refine ⟨by decide, by decide, by decide, by decide⟩

/-- C2 (amended, transactional path): `POST /user/ratings` applies the
rating row change and the cached-aggregate refresh atomically — on any
rejection the state is exactly the old state, and on success the new state
simultaneously holds the upserted row set and a cache equal to
`ROUND(AVG(rating), 2)` over it, which is also what the response reports. -/
theorem user_submit_transaction_atomic (db : DB) (uid : ℕ) (sq v : ℚ) :
    ((postUserRatings db uid sq v).1.isOk = false → (postUserRatings db uid sq v).2 = db) ∧
    (∀ o t b, (postUserRatings db uid sq v).1 = .okSubmit o t b →
      ∃ st ∈ db.stores, (st.id : ℚ) = sq ∧
        (postUserRatings db uid sq v).2.ratings
            = (upsertRating db.ratings uid st.id (ratTrunc v)).1 ∧
          cacheOf (postUserRatings db uid sq v).2 st.id
            = some (aggHundredths (ratingsOfStore (postUserRatings db uid sq v).2 st.id)) ∧
          o = aggHundredths (ratingsOfStore (postUserRatings db uid sq v).2 st.id) ∧
          t = (ratingsOfStore (postUserRatings db uid sq v).2 st.id).length) := by
  rcases postUserRatings_cases db uid sq v with ⟨heq, hok⟩ | ⟨st, hfind, heq⟩
  · constructor
    · intro
      exact heq
    · intro o t b hresp
      rw [hresp] at hok
      simp [UserRatingResp.isOk] at hok
  · have hmem : st ∈ db.stores := List.mem_of_find?_eq_some hfind
    have hpred := List.find?_some hfind
    have hq : (st.id : ℚ) = sq := by simpa [beq_iff_eq] using hpred
    have hpext : ∀ s : Store, ((s.id : ℚ) == sq) = (s.id == st.id) := by
      intro s
      rw [← hq]
      by_cases hh : s.id = st.id
      · simp [hh]
      · have l1 : ((s.id : ℚ) == (st.id : ℚ)) = false := by
          simp only [beq_eq_false_iff_ne, ne_eq, Nat.cast_inj]
          exact hh
        have l2 : (s.id == st.id) = false := by
          simp only [beq_eq_false_iff_ne, ne_eq]
          exact hh
        rw [l1, l2]
    constructor
    · intro hok2
      rw [heq] at hok2
      simp [UserRatingResp.isOk] at hok2
    · intro o t b hresp
      rw [heq] at hresp
      simp only [UserRatingResp.okSubmit.injEq] at hresp
      have hfind2 : db.stores.find? (fun s => s.id == st.id) = some st := by
        rw [← find?_ext _ _ hpext]
        exact hfind
      refine ⟨st, hmem, hq, ?_, ?_, ?_, ?_⟩
      · rw [heq]
      · rw [heq]
        show cacheOf
          (⟨(upsertRating db.ratings uid st.id (ratTrunc v)).1,
            db.stores.map (fun s =>
              if s.id == st.id then
                { s with overall_rating := some (aggHundredths
                  ((upsertRating db.ratings uid st.id (ratTrunc v)).1.filter
                    (fun r => r.store_id == st.id))) }
              else s)⟩ : DB) st.id = _
        unfold cacheOf
        have hcomp : ∀ s : Store,
            ((fun s : Store => s.id == st.id) ∘ (fun s =>
              if s.id == st.id then
                { s with overall_rating := some (aggHundredths
                  ((upsertRating db.ratings uid st.id (ratTrunc v)).1.filter
                    (fun r => r.store_id == st.id))) }
              else s)) s = (fun s : Store => s.id == st.id) s := by
          intro s
          simp only [Function.comp_apply]
          by_cases h5 : (s.id == st.id) = true
          · rw [if_pos h5]
          · rw [if_neg h5]
        rw [List.find?_map, find?_ext _ _ hcomp, hfind2, Option.map_some',
          if_pos (by simp : (st.id == st.id) = true)]
        rfl
      · rw [heq]
        exact hresp.1.symm
      · rw [heq]
        exact hresp.2.1.symm

/-- Witness for `user_submit_transaction_atomic`: a rejected submit (store
2 does not exist) leaves the one-store state unchanged, and a successful
submit of rating 3 to store 1 updates row set and cache together. -/
theorem user_submit_transaction_atomic_witness :
    (postUserRatings ⟨[], [⟨1, none⟩]⟩ 9 2 3).2 = ⟨[], [⟨1, none⟩]⟩ ∧
      ∃ st ∈ (⟨[], [⟨1, none⟩]⟩ : DB).stores, (st.id : ℚ) = 1 ∧
        (postUserRatings ⟨[], [⟨1, none⟩]⟩ 9 1 3).2.ratings
            = (upsertRating (⟨[], [⟨1, none⟩]⟩ : DB).ratings 9 st.id (ratTrunc 3)).1 ∧
          cacheOf (postUserRatings ⟨[], [⟨1, none⟩]⟩ 9 1 3).2 st.id
            = some (aggHundredths
                (ratingsOfStore (postUserRatings ⟨[], [⟨1, none⟩]⟩ 9 1 3).2 st.id)) ∧
          (300 : ℤ) = aggHundredths
              (ratingsOfStore (postUserRatings ⟨[], [⟨1, none⟩]⟩ 9 1 3).2 st.id) ∧
          1 = (ratingsOfStore (postUserRatings ⟨[], [⟨1, none⟩]⟩ 9 1 3).2 st.id).length :=
  ⟨(user_submit_transaction_atomic ⟨[], [⟨1, none⟩]⟩ 9 2 3).1 (by decide),
   (user_submit_transaction_atomic ⟨[], [⟨1, none⟩]⟩ 9 1 3).2 300 1 false (by decide)⟩

/-- C2 as stated is false on the code: the public `POST /api/ratings` is
not transactional — here the rating write for store 1 commits and the
response reports success, while the store-cache update has failed and been
swallowed, leaving a reachable state whose rating write committed but whose
cached aggregate was not refreshed. -/
theorem public_submit_atomicity_counterexample :
    (postApiRatings ⟨[], [⟨1, none⟩]⟩ 1 3 true).1 = .okSubmit 300 false ∧
      (postApiRatings ⟨[], [⟨1, none⟩]⟩ 1 3 true).2 = ⟨[⟨1, 1, 3⟩], [⟨1, none⟩]⟩ ∧
      cacheOf (postApiRatings ⟨[], [⟨1, none⟩]⟩ 1 3 true).2 1
        ≠ some (aggHundredths (ratingsOfStore (postApiRatings ⟨[], [⟨1, none⟩]⟩ 1 3 true).2 1)) := by
  refine ⟨by decide, by decide, by decide⟩

/-- C3 is right about the intended behavior and the code is wrong: at the
failing input — one rating (user 1, store 1, value 5) with a consistent
cache of 5.00 — `DELETE /user/ratings/:store_id` removes the rating but
leaves `overall_rating` at 5.00 instead of recomputing it, while the
NotFound half of the claim does hold (deleting a nonexistent rating
changes nothing). -/
theorem delete_leaves_cache_stale_eval :
    deleteUserRating ⟨[⟨1, 1, 5⟩], [⟨1, some 500⟩]⟩ 1 1
        = (.okDelete, ⟨[], [⟨1, some 500⟩]⟩) ∧
      ratingsOfStore (deleteUserRating ⟨[⟨1, 1, 5⟩], [⟨1, some 500⟩]⟩ 1 1).2 1 = [] ∧
      cacheOf (deleteUserRating ⟨[⟨1, 1, 5⟩], [⟨1, some 500⟩]⟩ 1 1).2 1 = some 500 ∧
      deleteUserRating ⟨[⟨1, 1, 5⟩], [⟨1, some 500⟩]⟩ 2 1
        = (.ratingNotFound, ⟨[⟨1, 1, 5⟩], [⟨1, some 500⟩]⟩) := by
  refine ⟨by decide, by decide, by decide, by decide⟩

/-- Truncating an integral request value gives back the integer. -/
theorem ratTrunc_natCast (n : ℕ) : ratTrunc ((n : ℕ) : ℚ) = (n : ℤ) := by
  unfold ratTrunc
  rw [Rat.num_natCast, Rat.den_natCast]
  simp

/-- With a positive integral store id, an in-range rating value and a
matching store row, `POST /user/ratings` takes its success path. -/
theorem postUserRatings_valid_eq (d : DB) (uid n : ℕ) (v : ℚ) (st : Store)
    (hn : 0 < n) (hv : validateRating v = true)
    (hfind : d.stores.find? (fun s => ((s.id : ℚ) == (n : ℚ))) = some st) :
    postUserRatings d uid (n : ℚ) v =
      (.okSubmit
        (aggHundredths ((upsertRating d.ratings uid st.id (ratTrunc v)).1.filter
          (fun r => r.store_id == st.id)))
        ((upsertRating d.ratings uid st.id (ratTrunc v)).1.filter
          (fun r => r.store_id == st.id)).length
        (upsertRating d.ratings uid st.id (ratTrunc v)).2,
       ⟨(upsertRating d.ratings uid st.id (ratTrunc v)).1,
        d.stores.map (fun s =>
          if s.id == st.id then
            { s with overall_rating := some (aggHundredths
              ((upsertRating d.ratings uid st.id (ratTrunc v)).1.filter
                (fun r => r.store_id == st.id))) }
          else s)⟩) := by
  have h1 : ¬((n : ℚ) = 0) := by
    simp only [Nat.cast_eq_zero]
    omega
  have h2 : validateStoreId (n : ℚ) = true := by
    unfold validateStoreId
    rw [ratTrunc_natCast]
    simp only [decide_eq_true_eq]
    exact_mod_cast hn
  have h3 : ¬(v = 0) := by
    intro h0
    subst h0
    unfold validateRating ratTrunc at hv
    simp [Rat.num_ofNat, Int.zero_tdiv] at hv
  simp [postUserRatings, h1, h2, h3, hv, hfind]

/-- Filtering by store and then by rater is filtering by the upsert key. -/
theorem filter_store_user_eq_keyMatch (l : List Rating) (uid n : ℕ) :
    (l.filter (fun r => r.store_id == n)).filter (fun r => r.user_id == uid)
      = l.filter (keyMatch uid n) := by
  induction l with
  | nil => rfl
  | cons a t ih =>
    simp only [List.filter_cons]
    by_cases hs : (a.store_id == n) = true
    · by_cases hu : (a.user_id == uid) = true
      · have hk : keyMatch uid n a = true := by simp [keyMatch, hs, hu]
        simp [hs, hu, hk, ih]
      · have hk : keyMatch uid n a = false := by simp [keyMatch, hu]
        simp [hs, hu, hk, ih]
    · have hk : keyMatch uid n a = false := by simp [keyMatch, hs]
      simp [hs, hk, ih]

/-- C4: two valid Submit calls for the same (user, store) pair leave the
uniqueness constraint intact and exactly one rating row for the pair, whose
value is the last submitted one; ListByStore restricted to that rater shows
exactly that one row. -/
theorem submit_upsert_uniqueness (db : DB) (uid n : ℕ) (v1 v2 : ℚ)
    (hWF : RatingsWF db) (hn : 0 < n) (hst : ∃ s ∈ db.stores, s.id = n)
    (hv1 : validateRating v1 = true) (hv2 : validateRating v2 = true) :
    RatingsWF (postUserRatings (postUserRatings db uid (n : ℚ) v1).2 uid (n : ℚ) v2).2 ∧
      ((postUserRatings (postUserRatings db uid (n : ℚ) v1).2 uid (n : ℚ) v2).2).ratings.filter
          (keyMatch uid n) = [⟨uid, n, ratTrunc v2⟩] ∧
      storeRatingsOfUser
          (postUserRatings (postUserRatings db uid (n : ℚ) v1).2 uid (n : ℚ) v2).2 n uid
        = [⟨uid, n, ratTrunc v2⟩] := by
  obtain ⟨s0, hs0, hs0id⟩ := hst
  have hfs1 : (db.stores.find? (fun s => ((s.id : ℚ) == (n : ℚ)))).isSome :=
    List.find?_isSome.mpr ⟨s0, hs0, by simp [hs0id]⟩
  obtain ⟨st1, hfind1⟩ := Option.isSome_iff_exists.mp hfs1
  have hst1id : st1.id = n := by
    have := List.find?_some hfind1
    simpa [beq_iff_eq, Nat.cast_inj] using this
  have heq1 := postUserRatings_valid_eq db uid n v1 st1 hn hv1 hfind1
  have hdb1r : (postUserRatings db uid (n : ℚ) v1).2.ratings
      = (upsertRating db.ratings uid st1.id (ratTrunc v1)).1 := by
    rw [heq1]
  have hWF1 : RatingsWF (postUserRatings db uid (n : ℚ) v1).2 := by
    unfold RatingsWF
    rw [hdb1r]
    exact upsert_preserves_pairwise _ _ _ _ hWF
  have hst1' : ∃ s ∈ (postUserRatings db uid (n : ℚ) v1).2.stores, s.id = n := by
    rw [heq1]
    refine ⟨_, List.mem_map_of_mem _ hs0, ?_⟩
    by_cases hgg : (s0.id == st1.id) = true
    · rw [if_pos hgg]
      exact hs0id
    · rw [if_neg hgg]
      exact hs0id
  obtain ⟨s1, hs1, hs1id⟩ := hst1'
  have hfs2 : ((postUserRatings db uid (n : ℚ) v1).2.stores.find?
      (fun s => ((s.id : ℚ) == (n : ℚ)))).isSome :=
    List.find?_isSome.mpr ⟨s1, hs1, by simp [hs1id]⟩
  obtain ⟨st2, hfind2⟩ := Option.isSome_iff_exists.mp hfs2
  have hst2id : st2.id = n := by
    have := List.find?_some hfind2
    simpa [beq_iff_eq, Nat.cast_inj] using this
  have heq2 := postUserRatings_valid_eq _ uid n v2 st2 hn hv2 hfind2
  have hdb2r : (postUserRatings (postUserRatings db uid (n : ℚ) v1).2 uid (n : ℚ) v2).2.ratings
      = (upsertRating (postUserRatings db uid (n : ℚ) v1).2.ratings uid st2.id
          (ratTrunc v2)).1 := by
    rw [heq2]
  refine ⟨?_, ?_, ?_⟩
  · unfold RatingsWF
    rw [hdb2r]
    exact upsert_preserves_pairwise _ _ _ _ hWF1
  · rw [hdb2r, hst2id]
    exact upsert_filter_key _ _ _ _ hWF1
  · unfold storeRatingsOfUser getStoreRatings ratingsOfStore
    rw [filter_store_user_eq_keyMatch, hdb2r, hst2id]
    exact upsert_filter_key _ _ _ _ hWF1

/-- Witness for `submit_upsert_uniqueness`: user 7 submits 2 then 4 for
store 1 in a one-store database. -/
theorem submit_upsert_uniqueness_witness :
    RatingsWF (postUserRatings
        (postUserRatings ⟨[], [⟨1, none⟩]⟩ 7 ((1 : ℕ) : ℚ) 2).2 7 ((1 : ℕ) : ℚ) 4).2 ∧
      ((postUserRatings (postUserRatings ⟨[], [⟨1, none⟩]⟩ 7 ((1 : ℕ) : ℚ) 2).2 7
          ((1 : ℕ) : ℚ) 4).2).ratings.filter (keyMatch 7 1) = [⟨7, 1, ratTrunc 4⟩] ∧
      storeRatingsOfUser (postUserRatings
          (postUserRatings ⟨[], [⟨1, none⟩]⟩ 7 ((1 : ℕ) : ℚ) 2).2 7 ((1 : ℕ) : ℚ) 4).2 1 7
        = [⟨7, 1, ratTrunc 4⟩] :=
  submit_upsert_uniqueness ⟨[], [⟨1, none⟩]⟩ 7 1 2 4 (List.Pairwise.nil) (by decide)
    (by decide) (by decide) (by decide)

/-- C5 (amended): `POST /user/ratings` rejects before any write — with an
unchanged state — whenever the `parseInt`-truncation of the rating value is
outside `[1,5]` (not whenever the raw value is: see the counterexample),
answers NotFound with an unchanged state when no store matches the id, and
accepts whenever the truncation is in range and the store exists. -/
theorem submit_validation_amended (db : DB) (uid : ℕ) (sq v : ℚ) :
    (¬sq = 0 → validateStoreId sq = true → (ratTrunc v < 1 ∨ 5 < ratTrunc v) →
      (postUserRatings db uid sq v).2 = db ∧
        (postUserRatings db uid sq v).1.isOk = false ∧
        (postUserRatings db uid sq v).1 ≠ .storeNotFound) ∧
    ((∀ s ∈ db.stores, ¬((s.id : ℚ) = sq)) → ¬sq = 0 → validateStoreId sq = true →
      ¬v = 0 → validateRating v = true →
      postUserRatings db uid sq v = (.storeNotFound, db)) ∧
    (∀ n : ℕ, 0 < n → (∃ s ∈ db.stores, s.id = n) → validateRating v = true →
      (postUserRatings db uid (n : ℚ) v).1.isOk = true) := by
  refine ⟨?_, ?_, ?_⟩
  · intro h1 h2 hrange
    by_cases hv0 : v = 0
    · refine ⟨?_, ?_, ?_⟩ <;> simp [postUserRatings, h1, h2, hv0, UserRatingResp.isOk]
    · have hvr : validateRating v = false := by
        unfold validateRating
        rcases hrange with hlt | hgt
        · have : ¬(1 ≤ ratTrunc v) := by omega
          simp [this]
        · have : ¬(ratTrunc v ≤ 5) := by omega
          simp [this]
      refine ⟨?_, ?_, ?_⟩ <;> simp [postUserRatings, h1, h2, hv0, hvr, UserRatingResp.isOk]
  · intro hnone h1 h2 h3 h4
    have hfind : db.stores.find? (fun s => ((s.id : ℚ) == sq)) = none := by
      rw [List.find?_eq_none]
      intro s hs
      simp only [beq_iff_eq]
      exact hnone s hs
    simp [postUserRatings, h1, h2, h3, h4, hfind]
  · intro n hn hex hv
    obtain ⟨s0, hs0, hs0id⟩ := hex
    have hfs : (db.stores.find? (fun s => ((s.id : ℚ) == (n : ℚ)))).isSome :=
      List.find?_isSome.mpr ⟨s0, hs0, by simp [hs0id]⟩
    obtain ⟨st, hfind⟩ := Option.isSome_iff_exists.mp hfs
    rw [postUserRatings_valid_eq db uid n v st hn hv hfind]
    rfl

/-- Witness for `submit_validation_amended`: value 6.1 is rejected leaving
the state unchanged, store 2 gives NotFound, and value 3 for existing store
1 is accepted. -/
theorem submit_validation_amended_witness :
    ((postUserRatings ⟨[], [⟨1, none⟩]⟩ 7 1 (rawRat 61 10 (by decide) (by decide))).2
          = ⟨[], [⟨1, none⟩]⟩ ∧
        (postUserRatings ⟨[], [⟨1, none⟩]⟩ 7 1
          (rawRat 61 10 (by decide) (by decide))).1.isOk = false ∧
        (postUserRatings ⟨[], [⟨1, none⟩]⟩ 7 1
          (rawRat 61 10 (by decide) (by decide))).1 ≠ .storeNotFound) ∧
      postUserRatings ⟨[], [⟨1, none⟩]⟩ 7 2 3 = (.storeNotFound, ⟨[], [⟨1, none⟩]⟩) ∧
      (postUserRatings ⟨[], [⟨1, none⟩]⟩ 7 ((1 : ℕ) : ℚ) 3).1.isOk = true :=
  ⟨(submit_validation_amended ⟨[], [⟨1, none⟩]⟩ 7 1
      (rawRat 61 10 (by decide) (by decide))).1 (by decide) (by decide) (by decide),
   (submit_validation_amended ⟨[], [⟨1, none⟩]⟩ 7 2 3).2.1 (by decide) (by decide) (by decide)
      (by decide) (by decide),
   (submit_validation_amended ⟨[], [⟨1, none⟩]⟩ 7 2 3).2.2 1 (by decide) (by decide)
      (by decide)⟩

/-- C5 as stated is false on the code: the non-integer value 5.9 lies
outside `[1,5]`, yet `validateRating` accepts it (`parseInt` truncates it
to 5) and the submit succeeds, writing rating 5 — no ValidationError is
raised. -/
theorem submit_validation_counterexample :
    validateRating (rawRat 59 10 (by decide) (by decide)) = true ∧
      ¬((1 : ℚ) ≤ rawRat 59 10 (by decide) (by decide) ∧
        rawRat 59 10 (by decide) (by decide) ≤ 5) ∧
      postUserRatings ⟨[], [⟨1, none⟩]⟩ 7 1 (rawRat 59 10 (by decide) (by decide))
        = (.okSubmit 500 1 false, ⟨[⟨7, 1, 5⟩], [⟨1, some 500⟩]⟩) := by
  refine ⟨by decide, by decide, by decide⟩

/-- C6 (amended): bootstrap admin creation succeeds exactly once — with the
correct secret and valid fields it creates the admin while none exists, and
afterwards every attempt fails without creating a user; but a later attempt
fails with Conflict only when it presents the correct secret — with a wrong
secret the failure is Forbidden, because the secret is checked before the
admin-exists check. -/
theorem bootstrap_admin_amended (hash : String → String) (users : List User)
    (name email password address secret : String) :
    (secret ≠ ADMIN_SECRET →
      postRegisterAdmin hash users name email password address secret = (.forbidden, users)) ∧
    (secret = ADMIN_SECRET → (∃ u ∈ users, u.role = "admin") →
      postRegisterAdmin hash users name email password address secret = (.conflict, users)) ∧
    (secret = ADMIN_SECRET → (∀ u ∈ users, u.role ≠ "admin") →
      ¬name = "" → ¬email = "" → ¬password = "" → ¬address = "" →
      validateName name = true → validateEmail email = true →
      validatePassword password = true → validateAddress address = true →
      postRegisterAdmin hash users name email password address secret =
          (.created (users.length + 1) (jsTrim (jsToLower email)),
           users ++ [⟨users.length + 1, jsTrim name, jsTrim (jsToLower email), hash password,
             jsTrim address, "admin"⟩]) ∧
        (∀ secret2 n2 e2 p2 a2,
          (postRegisterAdmin hash
              (users ++ [⟨users.length + 1, jsTrim name, jsTrim (jsToLower email),
                hash password, jsTrim address, "admin"⟩]) n2 e2 p2 a2 secret2).1
              = .forbidden ∨
            (postRegisterAdmin hash
              (users ++ [⟨users.length + 1, jsTrim name, jsTrim (jsToLower email),
                hash password, jsTrim address, "admin"⟩]) n2 e2 p2 a2 secret2).1
              = .conflict)) := by
  refine ⟨?_, ?_, ?_⟩
  · intro hsec
    simp [postRegisterAdmin, hsec]
  · intro hsec hadm
    obtain ⟨u, hu, hurole⟩ := hadm
    have hany : users.any (fun u => u.role == "admin") = true :=
      List.any_eq_true.mpr ⟨u, hu, by simp [beq_iff_eq, hurole]⟩
    simp [postRegisterAdmin, hsec, hany]
  · intro hsec hnoadm hn he hp ha hvn hve hvp hva
    have hany : users.any (fun u => u.role == "admin") = false := by
      rw [List.any_eq_false]
      intro u hu
      simp only [beq_iff_eq]
      exact hnoadm u hu
    constructor
    · simp [postRegisterAdmin, hsec, hany, hn, he, hp, ha, hvn, hve, hvp, hva]
    · intro secret2 n2 e2 p2 a2
      by_cases hs2 : secret2 ≠ ADMIN_SECRET
      · left
        simp [postRegisterAdmin, hs2]
      · right
        have hany2 : (users ++ [(⟨users.length + 1, jsTrim name, jsTrim (jsToLower email),
            hash password, jsTrim address, "admin"⟩ : User)]).any (fun u => u.role == "admin")
            = true := by
          rw [List.any_eq_true]
          refine ⟨⟨users.length + 1, jsTrim name, jsTrim (jsToLower email), hash password,
            jsTrim address, "admin"⟩,
            List.mem_append_right _ (List.mem_singleton.mpr rfl), ?_⟩
          simp
        simp [postRegisterAdmin, hs2, hany2]

/-- Witness for `bootstrap_admin_amended`: a wrong secret is Forbidden, a
correct secret with an existing admin is Conflict, and on an empty user
table a valid request creates the admin after which a repeat attempt is
Forbidden-or-Conflict. -/
theorem bootstrap_admin_amended_witness :
    postRegisterAdmin id [] "x" "y" "z" "w" "WRONG" = (.forbidden, []) ∧
      postRegisterAdmin id [⟨1, "n", "a@b.c", "h", "ad", "admin"⟩] "x" "y" "z" "w"
          "CREATE_FIRST_ADMIN_2025"
        = (.conflict, [⟨1, "n", "a@b.c", "h", "ad", "admin"⟩]) ∧
      postRegisterAdmin id [] "Administrator Full Name Here" "a@b.c" "GoodPass1!"
          "Some Address 1" "CREATE_FIRST_ADMIN_2025" =
        (.created 1 (jsTrim (jsToLower "a@b.c")),
         [] ++ [⟨1, jsTrim "Administrator Full Name Here", jsTrim (jsToLower "a@b.c"),
           id "GoodPass1!", jsTrim "Some Address 1", "admin"⟩]) ∧
      ((postRegisterAdmin id
          ([] ++ [⟨1, jsTrim "Administrator Full Name Here", jsTrim (jsToLower "a@b.c"),
            id "GoodPass1!", jsTrim "Some Address 1", "admin"⟩]) "x" "y" "z" "w"
          "CREATE_FIRST_ADMIN_2025").1 = .forbidden ∨
        (postRegisterAdmin id
          ([] ++ [⟨1, jsTrim "Administrator Full Name Here", jsTrim (jsToLower "a@b.c"),
            id "GoodPass1!", jsTrim "Some Address 1", "admin"⟩]) "x" "y" "z" "w"
          "CREATE_FIRST_ADMIN_2025").1 = .conflict) :=
  ⟨(bootstrap_admin_amended id [] "x" "y" "z" "w" "WRONG").1 (by decide),
   (bootstrap_admin_amended id [⟨1, "n", "a@b.c", "h", "ad", "admin"⟩] "x" "y" "z" "w"
      "CREATE_FIRST_ADMIN_2025").2.1 rfl ⟨_, List.mem_singleton.mpr rfl, rfl⟩,
   ((bootstrap_admin_amended id [] "Administrator Full Name Here" "a@b.c" "GoodPass1!"
      "Some Address 1" "CREATE_FIRST_ADMIN_2025").2.2 rfl (by decide) (by decide) (by decide)
      (by decide) (by decide) (by decide) (by decide) (by decide) (by decide)).1,
   ((bootstrap_admin_amended id [] "Administrator Full Name Here" "a@b.c" "GoodPass1!"
      "Some Address 1" "CREATE_FIRST_ADMIN_2025").2.2 rfl (by decide) (by decide) (by decide)
      (by decide) (by decide) (by decide) (by decide) (by decide) (by decide)).2
      "CREATE_FIRST_ADMIN_2025" "x" "y" "z" "w"⟩

/-- C6 as stated is false on the code: with an admin already present, an
attempt with a different (wrong) secret fails with Forbidden (403), not
Conflict (409) — the secret check runs before the admin-exists check. -/
theorem bootstrap_admin_conflict_counterexample :
    (postRegisterAdmin id [⟨1, "n", "a@b.c", "h", "ad", "admin"⟩] "x" "y" "z" "w" "WRONG").1
        = .forbidden ∧
      (RegisterAdminResp.forbidden ≠ .conflict) ∧
      (postRegisterAdmin id [⟨1, "n", "a@b.c", "h", "ad", "admin"⟩] "x" "y" "z" "w" "WRONG").2
        = [⟨1, "n", "a@b.c", "h", "ad", "admin"⟩] := by
  refine ⟨by decide, by decide, by decide⟩

/-- C7: for every login attempt that fails authentication — whether no user
row matches the email or a row matches but the password comparison fails —
`POST /login` returns the one identical 401 response, error "Invalid
credentials" with message "Email or password is incorrect"; nothing in the
response distinguishes the two cases. -/
theorem login_uniform_invalid_credentials (compare : String → String → Bool)
    (users : List User) (email password : String)
    (he : ¬email = "") (hp : ¬password = "") (hv : validateEmail email = true) :
    (users.find? (fun u => u.email == jsTrim (jsToLower email)) = none →
      postLogin compare users email password
        = .unauthorized "Invalid credentials" "Email or password is incorrect") ∧
    (∀ u, users.find? (fun u => u.email == jsTrim (jsToLower email)) = some u →
      compare password u.password = false →
      postLogin compare users email password
        = .unauthorized "Invalid credentials" "Email or password is incorrect") := by
  constructor
  · intro hfind
    simp [postLogin, he, hp, hv, hfind]
  · intro u hfind hcmp
    simp [postLogin, he, hp, hv, hfind, hcmp]

/-- Witness for `login_uniform_invalid_credentials`: against a one-user
table, an unknown email and a wrong password for the known email produce
the same 401 body. -/
theorem login_uniform_invalid_credentials_witness :
    postLogin (fun p h => p == h) [⟨1, "Nm", "a@b.c", "pw1", "ad", "user"⟩] "x@y.z" "bad"
        = .unauthorized "Invalid credentials" "Email or password is incorrect" ∧
      postLogin (fun p h => p == h) [⟨1, "Nm", "a@b.c", "pw1", "ad", "user"⟩] "a@b.c" "bad"
        = .unauthorized "Invalid credentials" "Email or password is incorrect" :=
  ⟨(login_uniform_invalid_credentials (fun p h => p == h)
      [⟨1, "Nm", "a@b.c", "pw1", "ad", "user"⟩] "x@y.z" "bad" (by decide) (by decide)
      (by decide)).1 (by decide),
   (login_uniform_invalid_credentials (fun p h => p == h)
      [⟨1, "Nm", "a@b.c", "pw1", "ad", "user"⟩] "a@b.c" "bad" (by decide) (by decide)
      (by decide)).2 ⟨1, "Nm", "a@b.c", "pw1", "ad", "user"⟩ (by decide) (by decide)⟩

/-- Without line terminators in the string, the `.*`-prefixed lookahead is
plain existence. -/
theorem dotStarFind_eq_any (p : Char → Bool) :
    ∀ l : List Char, (∀ c ∈ l, isLineTerminator c = false) → dotStarFind p l = l.any p := by
  intro l
  induction l with
  | nil =>
    intro
    rfl
  | cons c cs ih =>
    intro h
    unfold dotStarFind
    by_cases hp : p c = true
    · simp [hp]
    · have hlt : isLineTerminator c = false := h c (by simp)
      have hpf : p c = false := Bool.eq_false_iff.mpr hp
      simp [hpf, hlt, ih (fun d hd => h d (by simp [hd]))]

/-- C8 (amended): the password validator behaves as the four quoted
examples say, and in general accepts exactly the passwords of length 8–16
that contain no line-terminator character, at least one uppercase ASCII
letter and at least one symbol of the defined punctuation set (a password
containing a line terminator is rejected by the `.{8,16}$` window even when
length, uppercase and symbol are all fine — see the counterexample). -/
theorem password_validator_characterization :
    (∀ p : String, validatePassword p = true ↔
      (8 ≤ p.length ∧ p.length ≤ 16 ∧ (∀ c ∈ p.data, isLineTerminator c = false) ∧
        p.data.any isUpperAZ = true ∧ p.data.any isPasswordSpecial = true)) ∧
      validatePassword "short1!" = false ∧
      validatePassword "alllowercase1!" = false ∧
      validatePassword "NoSpecialChar123" = false ∧
      validatePassword "GoodPass1!" = true := by
  refine ⟨?_, by decide, by decide, by decide, by decide⟩
  intro p
  unfold validatePassword lengthWindowOk
  simp only [Bool.and_eq_true, decide_eq_true_eq, List.all_eq_true, Bool.not_eq_true']
  constructor
  · rintro ⟨⟨hd1, hd2⟩, ⟨h8, h16⟩, hall⟩
    refine ⟨h8, h16, hall, ?_, ?_⟩
    · rw [← dotStarFind_eq_any isUpperAZ p.data hall]
      exact hd1
    · rw [← dotStarFind_eq_any isPasswordSpecial p.data hall]
      exact hd2
  · rintro ⟨h8, h16, hall, hu, hs⟩
    exact ⟨⟨by rw [dotStarFind_eq_any isUpperAZ p.data hall]; exact hu,
        by rw [dotStarFind_eq_any isPasswordSpecial p.data hall]; exact hs⟩,
      ⟨h8, h16⟩, hall⟩

/-- Witness for `password_validator_characterization` at "GoodPass1!". -/
theorem password_validator_characterization_witness :
    validatePassword "GoodPass1!" = true :=
  (password_validator_characterization.1 "GoodPass1!").mpr
    ⟨by decide, by decide, by decide, by decide, by decide⟩

/-- C8 as stated is false on the code: the password "A!bcdefg\n" has length
9 in 8–16, an uppercase letter and a symbol from the set, yet the validator
rejects it, because `.` in the `.{8,16}$` window does not match the line
terminator. -/
theorem password_validator_counterexample :
    validatePassword "A!bcdefg\n" = false ∧
      "A!bcdefg\n".length = 9 ∧
      "A!bcdefg\n".data.any isUpperAZ = true ∧
      "A!bcdefg\n".data.any isPasswordSpecial = true := by
  refine ⟨by decide, by decide, by decide, by decide⟩

/-- C9 (amended): `GET /user/stores` silently falls back to the default
order and succeeds for every sort value outside its allow-list that is not
an `Object.prototype` property name, and never errors on any value outside
that prototype set; a prototype property name (`constructor`, `toString`,
...) however makes the object lookup truthy, interpolates a non-SQL value
and fails the request with a 500.  `GET /admin/stores` falls back to its
default and succeeds for every disallowed sort whose field is not
"rating"; the "rating" field with a junk direction instead produces a
malformed query and a 500 (see the counterexample). -/
theorem sort_fallback_amended :
    (∀ s : String, objectProtoKeys.contains s = false →
      userStoresOutcome (some s) = .okQuery (userStoresOrderBy (some s))) ∧
    userStoresOutcome none = .okQuery DEFAULT_STORE_ORDER ∧
    (∀ s : String, (∀ pr ∈ userStoresValidSorts, ¬(pr.1 = s)) →
      objectProtoKeys.contains s = false →
      userStoresOrderBy (some s) = DEFAULT_STORE_ORDER) ∧
    (∀ s : String, objectProtoKeys.contains s = true →
      userStoresOutcome (some s) = .serverError) ∧
    (∀ s : String, adminStoresFieldDirOk s = false → ¬((jsSplitTwo s).1 = "rating") →
      adminStoresOutcome (some s) = .okQuery DEFAULT_STORE_ORDER) := by
  refine ⟨?_, by decide, ?_, ?_, ?_⟩
  · intro s hnp
    by_cases hs : s = ""
    · subst hs
      decide
    · cases hfind : userStoresValidSorts.find? (fun p => p.1 == s) with
      | none =>
        have hpm : s ∉ objectProtoKeys := by simpa using hnp
        have horder : userStoresOrderBy (some s) = DEFAULT_STORE_ORDER := by
          simp [userStoresOrderBy, hs, hfind, hpm]
        unfold userStoresOutcome
        rw [horder]
        decide
      | some pr =>
        have hmem : pr ∈ userStoresValidSorts := List.mem_of_find?_eq_some hfind
        have horder : userStoresOrderBy (some s) = pr.2 := by
          simp [userStoresOrderBy, hs, hfind]
        unfold userStoresOutcome
        rw [horder]
        simp only [userStoresValidSorts, List.mem_cons, List.not_mem_nil, or_false] at hmem
        rcases hmem with rfl | rfl | rfl | rfl | rfl | rfl <;> decide
  · intro s hnot hnp
    by_cases hs : s = ""
    · simp [userStoresOrderBy, hs]
    · have hfind : userStoresValidSorts.find? (fun p => p.1 == s) = none := by
        rw [List.find?_eq_none]
        intro pr hpr
        simp only [beq_iff_eq]
        exact hnot pr hpr
      have hpm : s ∉ objectProtoKeys := by simpa using hnp
      simp [userStoresOrderBy, hs, hfind, hpm]
  · intro s hp
    have hmem : s ∈ objectProtoKeys := by simpa using hp
    simp only [objectProtoKeys, List.mem_cons, List.not_mem_nil, or_false] at hmem
    rcases hmem with rfl | rfl | rfl | rfl | rfl | rfl | rfl | rfl | rfl | rfl | rfl | rfl <;>
      decide
  · intro s hok hrat
    by_cases hs : s = ""
    · have horder : adminStoresOrderBy (some s) = DEFAULT_STORE_ORDER := by
        simp [adminStoresOrderBy, hs]
      unfold adminStoresOutcome
      rw [horder]
      decide
    · have horder : adminStoresOrderBy (some s) = DEFAULT_STORE_ORDER := by
        simp [adminStoresOrderBy, hs, hok, hrat]
      unfold adminStoresOutcome
      rw [horder]
      decide

/-- Witness for `sort_fallback_amended`: the unknown token "bogus" and the
unknown pair "bogus:desc" both fall back to the default order and succeed,
while the prototype key "constructor" errors. -/
theorem sort_fallback_amended_witness :
    userStoresOutcome (some "bogus") = .okQuery (userStoresOrderBy (some "bogus")) ∧
      userStoresOutcome none = .okQuery DEFAULT_STORE_ORDER ∧
      userStoresOrderBy (some "bogus") = DEFAULT_STORE_ORDER ∧
      userStoresOutcome (some "constructor") = .serverError ∧
      adminStoresOutcome (some "bogus:desc") = .okQuery DEFAULT_STORE_ORDER :=
  ⟨sort_fallback_amended.1 "bogus" (by decide),
   sort_fallback_amended.2.1,
   sort_fallback_amended.2.2.1 "bogus" (by decide) (by decide),
   sort_fallback_amended.2.2.2.1 "constructor" (by decide),
   sort_fallback_amended.2.2.2.2 "bogus:desc" (by decide) (by decide)⟩

/-- C9 as stated is false on the code in two ways.  The sort value
"rating:algo" is not in any allow-list, yet `GET /admin/stores`
interpolates the direction unvalidated, producing the malformed clause
`ORDER BY rating ALGO`, and the request answers 500 instead of succeeding
with the default order.  And the sort value "constructor" is not in the
`GET /user/stores` allow-list either, yet the object lookup
`validSorts[sort]` finds the truthy inherited `Object.prototype`
constructor, interpolates its source text into the query, and the request
answers 500 as well. -/
theorem admin_sort_rating_direction_counterexample :
    adminStoresOrderBy (some "rating:algo") = "ORDER BY rating ALGO" ∧
      adminStoresOutcome (some "rating:algo") = .serverError ∧
      userStoresOrderBy (some "constructor")
          = "function constructor() [native code]" ∧
      userStoresOutcome (some "constructor") = .serverError ∧
      QueryOutcome.serverError ≠ .okQuery DEFAULT_STORE_ORDER := by
  refine ⟨by decide, by decide, by decide, by decide, by decide⟩

/-- Comparing integral columns through their SQL coercion to the rational
request value is comparing the integers. -/
theorem natCast_beq_natCast (a b : ℕ) : (((a : ℕ) : ℚ) == ((b : ℕ) : ℚ)) = (a == b) := by
  by_cases h : a = b
  · simp [h]
  · have l1 : (((a : ℕ) : ℚ) == ((b : ℕ) : ℚ)) = false := by
      simp only [beq_eq_false_iff_ne, ne_eq, Nat.cast_inj]
      exact h
    have l2 : (a == b) = false := by
      simp only [beq_eq_false_iff_ne, ne_eq]
      exact h
    rw [l1, l2]

/-- MySQL coercion of an integral request value into an `INT` column gives
back the integer. -/
theorem mysqlIntOfRat_natCast (m : ℕ) : mysqlIntOfRat ((m : ℕ) : ℚ) = (m : ℤ) := by
  unfold mysqlIntOfRat
  rw [Rat.num_natCast, Rat.den_natCast]
  rw [Int.tdiv_eq_ediv (by positivity) (by positivity)]
  push_cast
  omega

/-- The in-place rating update of an upsert leaves the rows of any other
rater untouched. -/
theorem filter_key_map_update_other_user (uid sid : ℕ) (v : ℤ) (u tid : ℕ) (h : ¬u = uid) :
    ∀ t : List Rating,
      (t.map (fun r => if keyMatch uid sid r then { r with rating := v } else r)).filter
          (keyMatch u tid) = t.filter (keyMatch u tid) := by
  intro t
  induction t with
  | nil => rfl
  | cons a t ih =>
    simp only [List.map_cons]
    by_cases hk : keyMatch uid sid a = true
    · have hu : a.user_id = uid := ((keyMatch_iff uid sid a).mp hk).1
      have hcond : keyMatch u tid a = false := by
        refine Bool.eq_false_iff.mpr (fun hc => ?_)
        exact h (by rw [← ((keyMatch_iff u tid a).mp hc).1, hu])
      have h2 : keyMatch u tid ({ a with rating := v } : Rating) = false := hcond
      rw [if_pos hk, List.filter_cons, List.filter_cons,
        if_neg (by simp [h2]), if_neg (by simp [hcond])]
      exact ih
    · rw [if_neg hk, List.filter_cons, List.filter_cons]
      by_cases hc : keyMatch u tid a = true
      · rw [if_pos hc, if_pos hc, ih]
      · rw [if_neg hc, if_neg hc, ih]

/-- The upsert never changes another rater's rows. -/
theorem upsert_filter_other_user (l : List Rating) (uid sid : ℕ) (v : ℤ) (u tid : ℕ)
    (h : ¬u = uid) :
    (upsertRating l uid sid v).1.filter (keyMatch u tid) = l.filter (keyMatch u tid) := by
  unfold upsertRating
  by_cases hany : l.any (keyMatch uid sid) = true
  · rw [if_pos hany]
    exact filter_key_map_update_other_user uid sid v u tid h l
  · rw [if_neg hany]
    have hcond : keyMatch u tid (⟨uid, sid, v⟩ : Rating) = false := by
      refine Bool.eq_false_iff.mpr (fun hc => ?_)
      exact h ((keyMatch_iff u tid _).mp hc).1.symm
    simp [List.filter_append, hcond]

/-- With an in-range value and an existing store, the public
`POST /api/ratings` commits exactly the user-1 upsert to the ratings
table, whatever the caller was and whether or not the cache update fails. -/
theorem postApiRatings_ratings_eq (db : DB) (m : ℕ) (v : ℚ) (fails : Bool)
    (hm : 0 < m) (hv1 : (1 : ℚ) ≤ v) (hv5 : v ≤ 5) (hst : ∃ s ∈ db.stores, s.id = m) :
    (postApiRatings db ((m : ℕ) : ℚ) v fails).2.ratings
      = (upsertRating db.ratings 1 m (mysqlIntOfRat v)).1 := by
  have g1 : ¬(((m : ℕ) : ℚ) = 0 ∨ v = 0) := by
    simp only [not_or, Nat.cast_eq_zero]
    exact ⟨by omega, (zero_lt_one.trans_le hv1).ne'⟩
  have g2 : ¬(v < 1 ∨ 5 < v) := by
    simp only [not_or, not_lt]
    exact ⟨hv1, hv5⟩
  have hpred : ∀ r : Rating,
      (r.user_id == 1 && ((r.store_id : ℚ) == ((m : ℕ) : ℚ))) = keyMatch 1 m r := by
    intro r
    unfold keyMatch
    rw [natCast_beq_natCast]
  by_cases hb : db.ratings.any
      (fun r => r.user_id == 1 && ((r.store_id : ℚ) == ((m : ℕ) : ℚ))) = true
  · have hbN : db.ratings.any (keyMatch 1 m) = true := by
      rcases List.any_eq_true.mp hb with ⟨r, hr, hrp⟩
      exact List.any_eq_true.mpr ⟨r, hr, by rw [← hpred r]; exact hrp⟩
    simp only [postApiRatings, postApiRatingsFinish, g1, g2, hb, if_false, if_true,
      reduceIte]
    unfold upsertRating
    rw [if_pos hbN]
    refine List.map_congr_left ?_
    intro r _
    rw [hpred r]
  · have hbN : ¬db.ratings.any (keyMatch 1 m) = true := by
      intro hc
      rcases List.any_eq_true.mp hc with ⟨r, hr, hrp⟩
      exact hb (List.any_eq_true.mpr ⟨r, hr, by rw [hpred r]; exact hrp⟩)
    obtain ⟨s0, hs0, hs0id⟩ := hst
    have hsany : db.stores.any (fun s => ((s.id : ℚ) == ((m : ℕ) : ℚ))) = true :=
      List.any_eq_true.mpr ⟨s0, hs0, by simp [hs0id]⟩
    simp only [postApiRatings, postApiRatingsFinish, g1, g2, hb, hsany, if_false, if_true,
      reduceIte]
    unfold upsertRating
    rw [if_neg hbN, mysqlIntOfRat_natCast, Int.toNat_natCast]
    rfl

/-- C10: every rating submitted through the public unauthenticated
`POST /api/ratings` is recorded with `user_id = 1` — after any such submit
the pair (1, store) holds exactly the submitted value while the rows of
every other user are untouched — and the public `GET /stores` handler,
which takes no caller identity at all, reports user 1's rating as the
`user_rating` of every store row it returns. -/
theorem public_rating_hardcoded_user_one (db : DB) (m : ℕ) (v : ℚ) (fails : Bool)
    (hWF : RatingsWF db) (hm : 0 < m) (hv1 : (1 : ℚ) ≤ v) (hv5 : v ≤ 5)
    (hst : ∃ s ∈ db.stores, s.id = m) :
    ((postApiRatings db ((m : ℕ) : ℚ) v fails).2.ratings.filter (keyMatch 1 m)
        = [⟨1, m, mysqlIntOfRat v⟩] ∧
      (∀ u tid : ℕ, ¬u = 1 →
        (postApiRatings db ((m : ℕ) : ℚ) v fails).2.ratings.filter (keyMatch u tid)
          = db.ratings.filter (keyMatch u tid))) ∧
    (∀ d : DB, ∀ view ∈ getStores d,
      view.user_rating
        = ((d.ratings.filter (fun r => r.store_id == view.id && r.user_id == 1)).map
            (fun r => r.rating)).head?) := by
  have hr := postApiRatings_ratings_eq db m v fails hm hv1 hv5 hst
  refine ⟨⟨?_, ?_⟩, ?_⟩
  · rw [hr]
    exact upsert_filter_key db.ratings 1 m (mysqlIntOfRat v) hWF
  · intro u tid hu
    rw [hr]
    exact upsert_filter_other_user db.ratings 1 m (mysqlIntOfRat v) u tid hu
  · intro d view hview
    rcases List.mem_map.mp hview with ⟨s, hs, rfl⟩
    show (d.ratings.find? (fun r => r.store_id == s.id && r.user_id == 1)).map
        (fun r => r.rating) = _
    rw [find?_eq_head_filter]
    rw [← List.head?_map]

/-- Witness for `public_rating_hardcoded_user_one`: submitting value 3 for
store 1 against a table holding user 2's rating creates user 1's row and
leaves user 2's row alone, and `GET /stores` serves user 1's rating. -/
theorem public_rating_hardcoded_user_one_witness :
    ((postApiRatings ⟨[⟨2, 1, 4⟩], [⟨1, some 400⟩]⟩ ((1 : ℕ) : ℚ) 3 false).2.ratings.filter
          (keyMatch 1 1) = [⟨1, 1, mysqlIntOfRat 3⟩] ∧
        (postApiRatings ⟨[⟨2, 1, 4⟩], [⟨1, some 400⟩]⟩ ((1 : ℕ) : ℚ) 3 false).2.ratings.filter
            (keyMatch 2 1)
          = (⟨[⟨2, 1, 4⟩], [⟨1, some 400⟩]⟩ : DB).ratings.filter (keyMatch 2 1)) ∧
      ∀ view ∈ getStores ⟨[⟨1, 1, 3⟩, ⟨2, 1, 4⟩], [⟨1, some 350⟩]⟩,
        view.user_rating
          = (((⟨[⟨1, 1, 3⟩, ⟨2, 1, 4⟩], [⟨1, some 350⟩]⟩ : DB).ratings.filter
              (fun r => r.store_id == view.id && r.user_id == 1)).map
                (fun r => r.rating)).head? :=
  ⟨⟨(public_rating_hardcoded_user_one ⟨[⟨2, 1, 4⟩], [⟨1, some 400⟩]⟩ 1 3 false
      (List.pairwise_singleton _ _) (by decide) (by decide) (by decide)
      ⟨⟨1, some 400⟩, by decide, rfl⟩).1.1,
    (public_rating_hardcoded_user_one ⟨[⟨2, 1, 4⟩], [⟨1, some 400⟩]⟩ 1 3 false
      (List.pairwise_singleton _ _) (by decide) (by decide) (by decide)
      ⟨⟨1, some 400⟩, by decide, rfl⟩).1.2 2 1 (by decide)⟩,
   (public_rating_hardcoded_user_one ⟨[⟨2, 1, 4⟩], [⟨1, some 400⟩]⟩ 1 3 false
      (List.pairwise_singleton _ _) (by decide) (by decide) (by decide)
      ⟨⟨1, some 400⟩, by decide, rfl⟩).2 ⟨[⟨1, 1, 3⟩, ⟨2, 1, 4⟩], [⟨1, some 350⟩]⟩⟩
